import Mathlib

/-!
Verification of the notification relay (maqibg/ccdd).

The JavaScript sources `src/telegram-notify.js` and `src/notify-sound.js`
are shallowly embedded below.  JavaScript strings are modelled as lists of
characters (`JStr`); `null`/`undefined` arguments are modelled as `Option`;
external effects (the Telegram HTTP transport, `JSON.parse`, the file
system, stdin) are modelled as explicit parameters, so every function of
the model is executable.
-/

/-- A JavaScript string, modelled as its sequence of characters. -/
abbrev JStr := List Char

/-- Converts a Lean string literal to the model's string type. -/
def S (s : String) : JStr := s.data

/-- Tests whether `needle` is a prefix of `hay` (character-wise equality). -/
def listStartsWith : JStr → JStr → Bool
  | [], _ => true
  | _ :: _, [] => false
  | a :: as, b :: bs => a == b && listStartsWith as bs

/-- Tests whether `needle` occurs as a contiguous substring of the second
argument; this embeds JavaScript's `String.prototype.includes`. -/
def listContainsSub (needle : JStr) : JStr → Bool
  | [] => listStartsWith needle []
  | h :: t => listStartsWith needle (h :: t) || listContainsSub needle t

/-- JavaScript's `includes(needle)` on a haystack. -/
def jsIncludes (hay needle : JStr) : Bool := listContainsSub needle hay

/-- The JavaScript regular-expression character class `\s` (also the set
trimmed by `String.prototype.trim`). -/
def jsWhitespace (c : Char) : Bool :=
  c == ' ' || c == '\t' || c == '\n' || c == '\r' ||
  c.toNat == 11 || c.toNat == 12 || c.toNat == 0xa0 || c.toNat == 0x1680 ||
  (0x2000 ≤ c.toNat && c.toNat ≤ 0x200a) ||
  c.toNat == 0x2028 || c.toNat == 0x2029 || c.toNat == 0x202f ||
  c.toNat == 0x205f || c.toNat == 0x3000 || c.toNat == 0xfeff

/-- JavaScript's `String.prototype.trim`: strips `\s` characters from both
ends. -/
def jsTrim (l : JStr) : JStr :=
  ((l.dropWhile jsWhitespace).reverse.dropWhile jsWhitespace).reverse

/-- JavaScript's `text.toLowerCase()` (ASCII case mapping; the Chinese
keywords used by the program are unaffected by case mapping). -/
def jsToLower (l : JStr) : JStr := l.map Char.toLower

/-- JavaScript's `replace(/c/g, r)` for a single-character pattern `c`:
every occurrence of `c` is replaced by the string `r`. -/
def replaceChar (c : Char) (r : JStr) (l : JStr) : JStr :=
  l.flatMap (fun x => if x == c then r else [x])

/-- Matcher for the tail of the regular expression `http\s*5\d{2}`:
skips `\s*`, then requires `5` followed by two digits. -/
def http5xxTail : JStr → Bool
  | [] => false
  | c :: rest =>
    if jsWhitespace c then http5xxTail rest
    else
      c == '5' &&
      (match rest with
       | d1 :: d2 :: _ => d1.isDigit && d2.isDigit
       | _ => false)

/-- Matcher for `http\s*5\d{2}` anchored at the start of the list. -/
def http5xxFrom : JStr → Bool
  | a :: b :: c :: d :: rest =>
    a == 'h' && b == 't' && c == 't' && d == 'p' && http5xxTail rest
  | _ => false

/-- JavaScript's `/http\s*5\d{2}/.test(text)`: the pattern may match at any
position. -/
def http5xxAnywhere : JStr → Bool
  | [] => false
  | h :: t => http5xxFrom (h :: t) || http5xxAnywhere t

/-- The waiting-for-input keyword test of `inferStatusFromText`
(src/telegram-notify.js lines 37–39), applied to the lowercased text. -/
def waitingKeywordHit (text : JStr) : Bool :=
  jsIncludes text (S "permission") || jsIncludes text (S "权限") ||
  jsIncludes text (S "idle") || jsIncludes text (S "等待") ||
  jsIncludes text (S "elicitation") || jsIncludes text (S "请输入")

/-- The failure keyword test of `inferStatusFromText`
(src/telegram-notify.js lines 44–46), applied to the lowercased text. -/
def failureKeywordHit (text : JStr) : Bool :=
  jsIncludes text (S "error") || jsIncludes text (S "失败") ||
  jsIncludes text (S "exception") || jsIncludes text (S "502") ||
  jsIncludes text (S "bad gateway") || http5xxAnywhere text

/-- Embeds `inferStatusFromText` (src/telegram-notify.js lines 31–51).
`none` models a `null`/`undefined` argument, which `String(taskInfo ?? '')`
coerces to the empty string.  Returns `等待输入` (waiting-for-input),
`失败` (failed) or `完成` (completed). -/
def inferStatusFromText (taskInfo : Option JStr) : JStr :=
  if waitingKeywordHit (jsToLower (taskInfo.getD [])) then S "等待输入"
  else if failureKeywordHit (jsToLower (taskInfo.getD [])) then S "失败"
  else S "完成"

/-- Embeds `escapeHtml` (src/telegram-notify.js lines 58–67): five global
single-character replacements applied in sequence, `&` first. -/
def escapeHtml (text : Option JStr) : JStr :=
  replaceChar '\'' (S "&#039;")
    (replaceChar '"' (S "&quot;")
      (replaceChar '>' (S "&gt;")
        (replaceChar '<' (S "&lt;")
          (replaceChar '&' (S "&amp;") (text.getD [])))))

/-- Text containing none of the five characters that `escapeHtml`
rewrites. -/
def htmlSafe (l : JStr) : Bool :=
  l.all (fun c => !(c == '&' || c == '<' || c == '>' || c == '"' || c == '\''))

theorem replaceChar_not_mem (c : Char) (r : JStr) (l : JStr) (h : c ∉ l) :
    replaceChar c r l = l := by
  induction l with
  | nil => rfl
  | cons x xs ih =>
    have hx : (x == c) = false := by
      simp only [beq_eq_false_iff_ne]
      intro e
      exact h (e ▸ List.mem_cons_self x xs)
    have hxs : c ∉ xs := fun m => h (List.mem_cons_of_mem _ m)
    simp only [replaceChar] at ih ⊢
    rw [List.flatMap_cons, ih hxs, hx]
    simp

theorem htmlSafe_not_mem (l : JStr) (h : htmlSafe l = true) :
    '&' ∉ l ∧ '<' ∉ l ∧ '>' ∉ l ∧ '"' ∉ l ∧ '\'' ∉ l := by
  have hall := List.all_eq_true.mp h
  refine ⟨fun m => ?_, fun m => ?_, fun m => ?_, fun m => ?_, fun m => ?_⟩ <;>
    · have := hall _ m
      simp at this

theorem escapeHtml_safe_id (l : JStr) (h : htmlSafe l = true) :
    escapeHtml (some l) = l := by
  obtain ⟨h1, h2, h3, h4, h5⟩ := htmlSafe_not_mem l h
  unfold escapeHtml
  simp only [Option.getD_some]
  rw [replaceChar_not_mem _ _ _ h1, replaceChar_not_mem _ _ _ h2,
    replaceChar_not_mem _ _ _ h3, replaceChar_not_mem _ _ _ h4,
    replaceChar_not_mem _ _ _ h5]

/-- C10: `inferStatusFromText` is total on every input (including the
`null`/`undefined` input, modelled as `none`), always returns one of the
three status strings 等待输入 / 失败 / 完成, and classifies the coerced
empty string as 完成 (completed). -/
theorem inferStatusFromText_total (t : Option JStr) :
    (inferStatusFromText t = S "等待输入" ∨ inferStatusFromText t = S "失败" ∨
      inferStatusFromText t = S "完成") ∧
    inferStatusFromText none = S "完成" := by
  constructor
  · unfold inferStatusFromText
    by_cases h1 : waitingKeywordHit (jsToLower (t.getD [])) = true
    · simp [h1]
    · by_cases h2 : failureKeywordHit (jsToLower (t.getD [])) = true
      · simp [h1, h2]
      · simp [h1, h2]
  · decide

/-- C4: the waiting-for-input keyword set is tested before the failure
keyword set, so any text hitting a waiting keyword is classified 等待输入
(waiting-for-input) even if failure keywords are also present; moreover
"permission denied, please confirm" classifies as waiting-for-input,
"Error: HTTP 502 Bad Gateway" as 失败 (failed), and "build succeeded" as
完成 (completed). -/
theorem inferStatusFromText_precedence (t : JStr)
    (h : waitingKeywordHit (jsToLower t) = true) :
    inferStatusFromText (some t) = S "等待输入" ∧
    inferStatusFromText (some (S "permission denied, please confirm")) = S "等待输入" ∧
    inferStatusFromText (some (S "Error: HTTP 502 Bad Gateway")) = S "失败" ∧
    inferStatusFromText (some (S "build succeeded")) = S "完成" := by
  refine ⟨?_, by decide, by decide, by decide⟩
  unfold inferStatusFromText
  simp [h]

/-- C4 witness: instantiated at a text containing both a waiting keyword
and a failure keyword. -/
theorem inferStatusFromText_precedence_witness :
    inferStatusFromText (some (S "permission error")) = S "等待输入" ∧
    inferStatusFromText (some (S "Error: HTTP 502 Bad Gateway")) = S "失败" :=
  ⟨(inferStatusFromText_precedence (S "permission error") (by decide)).1,
   (inferStatusFromText_precedence (S "permission error") (by decide)).2.2.1⟩

/-- C6: `escapeHtml` is idempotent on escape-safe text (text containing
none of the five special characters is left unchanged, so a second
application changes nothing), and it maps "<script>" to
"&lt;script&gt;" and a single quote to "&#039;". -/
theorem escapeHtml_spec (l : JStr) (h : htmlSafe l = true) :
    escapeHtml (some (escapeHtml (some l))) = escapeHtml (some l) ∧
    escapeHtml (some l) = l ∧
    escapeHtml (some (S "<script>")) = S "&lt;script&gt;" ∧
    escapeHtml (some (S "'")) = S "&#039;" := by
  have hid := escapeHtml_safe_id l h
  exact ⟨by rw [hid, hid], hid, by decide, by decide⟩

/-- C6 witness: instantiated at the safe text "hello world". -/
theorem escapeHtml_spec_witness :
    escapeHtml (some (escapeHtml (some (S "hello world")))) =
      escapeHtml (some (S "hello world")) ∧
    escapeHtml (some (S "hello world")) = S "hello world" :=
  ⟨(escapeHtml_spec (S "hello world") (by decide)).1,
   (escapeHtml_spec (S "hello world") (by decide)).2.1⟩

/-- One observable action of `TelegramNotifier.sendMessage`
(src/telegram-notify.js lines 125–139): either the disabled early return
(`skip`, which logs and performs no network activity) or the call to
`_sendPayload` with the `/sendMessage` endpoint and the assembled payload
(the only path that touches the network). -/
inductive SendAction where
  | skip
  | payload (endpoint : JStr) (chatId : JStr) (text : JStr) (parseMode : JStr)
deriving DecidableEq

/-- Embeds the branch structure of `TelegramNotifier.sendMessage`: when
`enabled` is false the method returns without building a payload. -/
def sendMessageAction (enabled : Bool) (chatId message parseMode : JStr) : SendAction :=
  if enabled then SendAction.payload (S "/sendMessage") chatId message parseMode
  else SendAction.skip

/-- The boolean that `sendMessage` resolves with: `false` on the disabled
path (line 128 `return false`), otherwise the result of the transport
(`_sendPayload`), supplied here as a parameter. -/
def sendMessageResult (enabled : Bool) (chatId message parseMode : JStr)
    (transportResult : Bool) : Bool :=
  match sendMessageAction enabled chatId message parseMode with
  | SendAction.skip => false
  | SendAction.payload _ _ _ _ => transportResult

/-- C1 counterexample: with the enabled flag false, `sendMessage` performs
no network activity but resolves `false`, not `true` as claimed — even
when the transport would have succeeded. -/
theorem sendMessage_disabled_counterexample :
    sendMessageAction false (S "42") (S "hi") (S "HTML") = SendAction.skip ∧
    sendMessageResult false (S "42") (S "hi") (S "HTML") true ≠ true := by
  exact ⟨rfl, by decide⟩

/-- C1 (amended): a disabled adapter's `sendMessage` performs no network
activity and resolves `false` (it is logged as skipped and surfaces as an
unsuccessful delivery, not as a success). -/
theorem sendMessage_disabled_spec (chatId message parseMode : JStr)
    (transportResult : Bool) :
    sendMessageAction false chatId message parseMode = SendAction.skip ∧
    sendMessageResult false chatId message parseMode transportResult = false := by
  constructor
  · rfl
  · rfl

/-- One observable step taken by the CONNECT handler inside
`TelegramNotifier._sendViaProxy` (src/telegram-notify.js lines 213–245):
on status 200 it issues an `https.request` over the tunnel socket, whose
TLS `servername` and `Host` header are taken from `apiUrl.hostname`;
on any other status it resolves `false` with no TLS attempt. -/
inductive ProxyStep where
  | tlsRequest (servername : JStr) (hostHeader : JStr) (reqPath : JStr)
  | resolveFalse
deriving DecidableEq

/-- Embeds the `connectReq.on('connect', ...)` handler of `_sendViaProxy`.
The proxy's own hostname is not consulted in the 200 branch: the
`servername` passed to the TLS layer is `apiUrl.hostname`. -/
def connectHandler (apiHostname apiPathname : JStr) (statusCode : Nat) : ProxyStep :=
  if statusCode == 200 then
    ProxyStep.tlsRequest apiHostname apiHostname apiPathname
  else ProxyStep.resolveFalse

/-- C7: a CONNECT response with status 200 leads to a TLS handshake over
the tunnel whose server name is the target API hostname (never the proxy
hostname, whenever the two differ); every non-200 CONNECT status resolves
`false` immediately with no TLS handshake attempted. -/
theorem connectHandler_spec (apiHostname apiPathname proxyHostname : JStr)
    (status : Nat) (hne : proxyHostname ≠ apiHostname) :
    connectHandler apiHostname apiPathname 200 =
      ProxyStep.tlsRequest apiHostname apiHostname apiPathname ∧
    (∀ sn hh p, connectHandler apiHostname apiPathname 200 =
      ProxyStep.tlsRequest sn hh p → sn = apiHostname ∧ sn ≠ proxyHostname) ∧
    (status ≠ 200 → connectHandler apiHostname apiPathname status =
      ProxyStep.resolveFalse) := by
  refine ⟨rfl, ?_, ?_⟩
  · intro sn hh p hstep
    have hsn : sn = apiHostname := by
      simp [connectHandler] at hstep
      exact hstep.1.symm
    exact ⟨hsn, fun e => hne (e ▸ hsn)⟩
  · intro hs
    unfold connectHandler
    rw [if_neg]
    simp [hs]

/-- C7 witness: instantiated at the Telegram API host behind a distinct
proxy host, with a 407 CONNECT rejection. -/
theorem connectHandler_spec_witness :
    connectHandler (S "api.telegram.org") (S "/botT/sendMessage") 200 =
      ProxyStep.tlsRequest (S "api.telegram.org") (S "api.telegram.org")
        (S "/botT/sendMessage") ∧
    connectHandler (S "api.telegram.org") (S "/botT/sendMessage") 407 =
      ProxyStep.resolveFalse :=
  ⟨(connectHandler_spec (S "api.telegram.org") (S "/botT/sendMessage")
      (S "proxy.local") 407 (by decide)).1,
   (connectHandler_spec (S "api.telegram.org") (S "/botT/sendMessage")
      (S "proxy.local") 407 (by decide)).2.2 (by decide)⟩

/-- The parsed shape of a Telegram Bot API response body; `ok` models the
truthiness of the `ok` field (a missing or falsy field is `false`). -/
structure TgApiResult where
  ok : Bool
  description : JStr
deriving DecidableEq

/-- Accumulation of the response body from its data chunks
(`responseData += chunk`, src/telegram-notify.js lines 259–263). -/
def accumulateChunks (chunks : List JStr) : JStr := chunks.foldl (· ++ ·) []

/-- Embeds `TelegramNotifier._handleResponse` (src/telegram-notify.js
lines 258–281).  `parse` models `JSON.parse` (`none` = the parse throws).
Returns the boolean the delivery resolves with, paired with the diagnostic
snippet `responseData.substring(0, 200)` logged on a parse failure. -/
def handleResponse (chunks : List JStr) (parse : JStr → Option TgApiResult) :
    Bool × Option JStr :=
  match parse (accumulateChunks chunks) with
  | some result => if result.ok then (true, none) else (false, none)
  | none => (false, some ((accumulateChunks chunks).take 200))

/-- C8: the response handler accumulates the full body then parses it as
JSON; a parsed body with a falsy (or missing) `ok` field resolves `false`
even though the HTTP transport succeeded, a body that fails to parse also
resolves `false` with the first 200 characters of the raw body retained
for diagnostics, and a truthy `ok` resolves `true`. -/
theorem handleResponse_spec (chunks : List JStr)
    (parse : JStr → Option TgApiResult) (r : TgApiResult) :
    (parse (accumulateChunks chunks) = none →
      handleResponse chunks parse =
        (false, some ((accumulateChunks chunks).take 200))) ∧
    (parse (accumulateChunks chunks) = some r → r.ok = false →
      handleResponse chunks parse = (false, none)) ∧
    (parse (accumulateChunks chunks) = some r → r.ok = true →
      handleResponse chunks parse = (true, none)) := by
  refine ⟨fun hp => ?_, fun hp hok => ?_, fun hp hok => ?_⟩
  · simp [handleResponse, hp]
  · simp [handleResponse, hp, hok]
  · simp [handleResponse, hp, hok]

/-- C8 witness: a 502 HTML error page that fails to parse resolves `false`
with its first 200 characters kept, and a parsed `{"ok":false}` body also
resolves `false`. -/
theorem handleResponse_spec_witness :
    handleResponse [S "<html>502", S " Bad Gateway</html>"] (fun _ => none) =
      (false, some (S "<html>502 Bad Gateway</html>")) ∧
    handleResponse [S "{}"] (fun _ => some ⟨false, S "Unauthorized"⟩) =
      (false, none) :=
  ⟨(handleResponse_spec [S "<html>502", S " Bad Gateway</html>"] (fun _ => none)
      ⟨false, []⟩).1 rfl,
   (handleResponse_spec [S "{}"] (fun _ => some ⟨false, S "Unauthorized"⟩)
      ⟨false, S "Unauthorized"⟩).2.1 rfl rfl⟩

/-- Embeds `readStdinJson` (src/notify-sound.js hook-entry part, lines
173–215).  `isTTY` models `process.stdin.isTTY`; `timedOut` models the
1-second timer firing before the readline interface closes (the promise
is already resolved `null` when the late close fires); `lines` are the
`'line'` events (accumulated with no separator by `data += line`);
`parse` models `JSON.parse` (`none` = the parse throws, which is caught,
logged and resolved as `null`).  Total by construction: every path
resolves, none rejects. -/
def readStdinJson {α : Type} (isTTY timedOut : Bool) (lines : List JStr)
    (parse : JStr → Option α) : Option α :=
  if isTTY then none
  else if timedOut then none
  else if (jsTrim (accumulateChunks lines)).isEmpty then none
  else parse (accumulateChunks lines)

/-- C9: when stdin is an interactive terminal `readStdinJson` resolves
`null` immediately, and whenever the accumulated text fails to parse as
JSON it resolves `null` (on every path — the model is a total function,
so it never throws or rejects). -/
theorem readStdinJson_spec {α : Type} (timedOut : Bool) (lines : List JStr)
    (parse : JStr → Option α)
    (hparse : parse (accumulateChunks lines) = none) :
    readStdinJson true timedOut lines parse = none ∧
    (∀ tty : Bool, readStdinJson tty timedOut lines parse = none) := by
  refine ⟨rfl, fun tty => ?_⟩
  cases tty with
  | true => rfl
  | false =>
    cases timedOut with
    | true => rfl
    | false =>
      unfold readStdinJson
      by_cases he : (jsTrim (accumulateChunks lines)).isEmpty = true
      · simp [he]
      · simp [he, hparse]

/-- C9 witness: a malformed JSON line on a non-interactive stdin resolves
`null`, as does the interactive fast path. -/
theorem readStdinJson_spec_witness :
    readStdinJson true false [S "bad json"] (fun _ => (none : Option Nat)) = none ∧
    readStdinJson false false [S "bad json"] (fun _ => (none : Option Nat)) = none :=
  ⟨(readStdinJson_spec false [S "bad json"] (fun _ => (none : Option Nat)) rfl).1,
   (readStdinJson_spec false [S "bad json"] (fun _ => (none : Option Nat)) rfl).2 false⟩

/-- The inferred status used by `notifyTaskCompletion`
(src/telegram-notify.js line 305). -/
def msgStatus (taskInfo : JStr) : JStr := inferStatusFromText (some taskInfo)

/-- The title assembled at src/telegram-notify.js line 309 (an empty
project name is falsy, selecting the generic 任务通知 title). -/
def msgTitle (taskInfo projectName : JStr) : JStr :=
  if projectName.isEmpty then S "【" ++ msgStatus taskInfo ++ S "】任务通知"
  else S "【" ++ msgStatus taskInfo ++ S "】" ++ projectName

/-- The fixed header `headerPrefix` of the message
(src/telegram-notify.js line 312); the formatted time is a parameter. -/
def headerLead (taskInfo projectName timeStr : JStr) : JStr :=
  S "<b>" ++ escapeHtml (some (msgTitle taskInfo projectName)) ++
    S "</b>\n■ 时间：" ++ timeStr ++ S "\n"

/-- The status-dependent `headerSuffix` (src/telegram-notify.js
lines 313–324). -/
def headerSuffix (taskInfo : JStr) : JStr :=
  if msgStatus taskInfo == S "失败" then []
  else if msgStatus taskInfo == S "等待输入" then S "■ 原因：需要你的输入\n"
  else S "■ 状态：任务已完成\n"

/-- The status-dependent `fieldLabel` (src/telegram-notify.js
lines 314–324). -/
def fieldLabel (taskInfo : JStr) : JStr :=
  if msgStatus taskInfo == S "失败" then S "<b>错误</b>："
  else if msgStatus taskInfo == S "等待输入" then S "■ 详情："
  else S "■ 详情："

/-- `fixedLength` (src/telegram-notify.js line 326). -/
def fixedLength (ti pn ts : JStr) : Nat :=
  (headerLead ti pn ts).length + (headerSuffix ti).length + (fieldLabel ti).length

/-- `maxContentLength = 4096 - fixedLength - 10`
(src/telegram-notify.js line 327); kept as an integer, as in JavaScript. -/
def maxContentLength (ti pn ts : JStr) : Int :=
  4096 - (fixedLength ti pn ts : Int) - 10

/-- JavaScript's `l.slice(0, e)`: a negative end index counts from the end
of the string. -/
def jsSlice0 (l : JStr) (e : Int) : JStr :=
  if e < 0 then l.take (l.length - (-e).toNat) else l.take e.toNat

/-- The (possibly truncated) body `contentText`
(src/telegram-notify.js lines 330–333). -/
def contentText (ti pn ts : JStr) : JStr :=
  if (ti.length : Int) > maxContentLength ti pn ts
  then jsSlice0 ti (maxContentLength ti pn ts) ++ S "..." else ti

/-- The final message assembled by `notifyTaskCompletion`
(src/telegram-notify.js lines 334–337): the HTML escape is applied to the
already-truncated `contentText`. -/
def assembleMessage (ti pn ts : JStr) : JStr :=
  headerLead ti pn ts ++ headerSuffix ti ++ fieldLabel ti ++
    escapeHtml (some (contentText ti pn ts))

theorem listStartsWith_cons_ne (a c : Char) (nd t : JStr) (h : a ≠ c) :
    listStartsWith (a :: nd) (c :: t) = false := by
  simp [listStartsWith, beq_eq_false_iff_ne, h]

theorem includes_replicate_false (c a : Char) (nd : JStr) (n : Nat) (h : a ≠ c) :
    jsIncludes (List.replicate n c) (a :: nd) = false := by
  unfold jsIncludes
  induction n with
  | zero => rfl
  | succ n ih =>
    rw [List.replicate_succ]
    unfold listContainsSub
    rw [listStartsWith_cons_ne a c nd _ h, ih]
    rfl

theorem http5xxFrom_head_ne (l : JStr) (h : ∀ a, l.head? = some a → a ≠ 'h') :
    http5xxFrom l = false := by
  rcases l with _ | ⟨a, _ | ⟨b, _ | ⟨c, _ | ⟨d, rest⟩⟩⟩⟩
  · rfl
  · rfl
  · rfl
  · rfl
  · have ha : (a == 'h') = false := by
      simp only [beq_eq_false_iff_ne]
      exact h a rfl
    simp [http5xxFrom, ha]

theorem http5xxAnywhere_replicate (c : Char) (n : Nat) (h : c ≠ 'h') :
    http5xxAnywhere (List.replicate n c) = false := by
  induction n with
  | zero => rfl
  | succ n ih =>
    rw [List.replicate_succ]
    unfold http5xxAnywhere
    rw [ih, http5xxFrom_head_ne]
    · rfl
    · intro a ha
      simp at ha
      exact ha ▸ h

theorem msgStatus_replicate (c : Char) (n : Nat)
    (hlow : Char.toLower c = c)
    (hp : c ≠ 'p') (hq : c ≠ '权') (hi : c ≠ 'i') (hd : c ≠ '等')
    (he : c ≠ 'e') (hr : c ≠ '请') (hf : c ≠ '失') (h5 : c ≠ '5')
    (hb : c ≠ 'b') (hh : c ≠ 'h') :
    msgStatus (List.replicate n c) = S "完成" := by
  unfold msgStatus inferStatusFromText
  have hmap : jsToLower ((some (List.replicate n c)).getD []) = List.replicate n c := by
    simp [jsToLower, List.map_replicate, hlow]
  rw [hmap]
  have hw : waitingKeywordHit (List.replicate n c) = false := by
    unfold waitingKeywordHit
    rw [show S "permission" = 'p' :: S "ermission" from rfl,
      show S "权限" = '权' :: S "限" from rfl,
      show S "idle" = 'i' :: S "dle" from rfl,
      show S "等待" = '等' :: S "待" from rfl,
      show S "elicitation" = 'e' :: S "licitation" from rfl,
      show S "请输入" = '请' :: S "输入" from rfl]
    rw [includes_replicate_false c 'p' _ n (Ne.symm hp),
      includes_replicate_false c '权' _ n (Ne.symm hq),
      includes_replicate_false c 'i' _ n (Ne.symm hi),
      includes_replicate_false c '等' _ n (Ne.symm hd),
      includes_replicate_false c 'e' _ n (Ne.symm he),
      includes_replicate_false c '请' _ n (Ne.symm hr)]
    rfl
  have hfail : failureKeywordHit (List.replicate n c) = false := by
    unfold failureKeywordHit
    rw [show S "error" = 'e' :: S "rror" from rfl,
      show S "失败" = '失' :: S "败" from rfl,
      show S "exception" = 'e' :: S "xception" from rfl,
      show S "502" = '5' :: S "02" from rfl,
      show S "bad gateway" = 'b' :: S "ad gateway" from rfl]
    rw [includes_replicate_false c 'e' (S "rror") n (Ne.symm he),
      includes_replicate_false c '失' _ n (Ne.symm hf),
      includes_replicate_false c 'e' (S "xception") n (Ne.symm he),
      includes_replicate_false c '5' _ n (Ne.symm h5),
      includes_replicate_false c 'b' _ n (Ne.symm hb),
      http5xxAnywhere_replicate c n hh]
    rfl
  rw [hw, hfail]
  rfl

theorem fixedLength_replicate (c : Char) (n : Nat)
    (hstat : msgStatus (List.replicate n c) = S "完成") :
    fixedLength (List.replicate n c) [] (S "01-01 00:00") = 49 := by
  have htitle : msgTitle (List.replicate n c) [] = S "【完成】任务通知" := by
    unfold msgTitle
    rw [hstat]
    decide
  have hlead : headerLead (List.replicate n c) [] (S "01-01 00:00") =
      S "<b>【完成】任务通知</b>\n■ 时间：01-01 00:00\n" := by
    unfold headerLead
    rw [htitle]
    decide
  have hsuf : headerSuffix (List.replicate n c) = S "■ 状态：任务已完成\n" := by
    unfold headerSuffix
    rw [hstat]
    decide
  have hlab : fieldLabel (List.replicate n c) = S "■ 详情：" := by
    unfold fieldLabel
    rw [hstat]
    decide
  unfold fixedLength
  rw [hlead, hsuf, hlab]
  decide

theorem replaceAmp_replicate_props (n : Nat) :
    (replaceChar '&' (S "&amp;") (List.replicate n '&')).length = 5 * n ∧
    (∀ x ∈ replaceChar '&' (S "&amp;") (List.replicate n '&'), x ∈ S "&amp;") := by
  induction n with
  | zero => exact ⟨rfl, by intro x hx; simp [replaceChar] at hx⟩
  | succ n ih =>
    have hf : (if ('&' == '&') = true then S "&amp;" else (['&'] : JStr)) = S "&amp;" := rfl
    unfold replaceChar at ih ⊢
    rw [List.replicate_succ, List.flatMap_cons, hf]
    constructor
    · rw [List.length_append, ih.1]
      have h5 : (S "&amp;").length = 5 := rfl
      rw [h5]
      omega
    · intro x hx
      rcases List.mem_append.mp hx with hx | hx
      · exact hx
      · exact ih.2 x hx

theorem escapeHtml_replicate_amp_len (n : Nat) :
    (escapeHtml (some (List.replicate n '&'))).length = 5 * n := by
  obtain ⟨hlen, hmem⟩ := replaceAmp_replicate_props n
  have h2 : '<' ∉ replaceChar '&' (S "&amp;") (List.replicate n '&') :=
    fun m => absurd (hmem _ m) (by decide)
  have h3 : '>' ∉ replaceChar '&' (S "&amp;") (List.replicate n '&') :=
    fun m => absurd (hmem _ m) (by decide)
  have h4 : '"' ∉ replaceChar '&' (S "&amp;") (List.replicate n '&') :=
    fun m => absurd (hmem _ m) (by decide)
  have h5 : '\'' ∉ replaceChar '&' (S "&amp;") (List.replicate n '&') :=
    fun m => absurd (hmem _ m) (by decide)
  unfold escapeHtml
  simp only [Option.getD_some]
  rw [replaceChar_not_mem _ _ _ h2, replaceChar_not_mem _ _ _ h3,
    replaceChar_not_mem _ _ _ h4, replaceChar_not_mem _ _ _ h5, hlen]

/-- C5 counterexample: a 1000-character body consisting of `&` is not
truncated (it is below `maxContentLength`), yet after HTML escaping the
assembled message is 5049 characters long, exceeding the 4096-character
limit — the escape expansion, applied after truncation, can overflow the
limit. -/
theorem assembleMessage_counterexample :
    4096 < (assembleMessage (List.replicate 1000 '&') [] (S "01-01 00:00")).length := by
  have hstat := msgStatus_replicate '&' 1000 (by decide) (by decide) (by decide)
    (by decide) (by decide) (by decide) (by decide) (by decide) (by decide)
    (by decide) (by decide)
  have hfix := fixedLength_replicate '&' 1000 hstat
  have hmax : maxContentLength (List.replicate 1000 '&') [] (S "01-01 00:00") = 4037 := by
    unfold maxContentLength
    rw [hfix]
    decide
  have hct : contentText (List.replicate 1000 '&') [] (S "01-01 00:00") =
      List.replicate 1000 '&' := by
    unfold contentText
    rw [hmax, if_neg]
    rw [List.length_replicate]
    omega
  have htitle : msgTitle (List.replicate 1000 '&') [] = S "【完成】任务通知" := by
    unfold msgTitle
    rw [hstat]
    decide
  have hlead : headerLead (List.replicate 1000 '&') [] (S "01-01 00:00") =
      S "<b>【完成】任务通知</b>\n■ 时间：01-01 00:00\n" := by
    unfold headerLead
    rw [htitle]
    decide
  have hsuf : headerSuffix (List.replicate 1000 '&') = S "■ 状态：任务已完成\n" := by
    unfold headerSuffix
    rw [hstat]
    decide
  have hlab : fieldLabel (List.replicate 1000 '&') = S "■ 详情：" := by
    unfold fieldLabel
    rw [hstat]
    decide
  unfold assembleMessage
  rw [hlead, hsuf, hlab, hct]
  rw [List.length_append, List.length_append, List.length_append,
    escapeHtml_replicate_amp_len]
  decide

/-- C5 (amended): a body longer than `4096 − fixedLength − 10` is
truncated to exactly that many characters and the 3-character ellipsis
marker is appended, so the header plus the truncated (pre-escape) body is
exactly `4096 − 7` characters — 3 more than the claimed `4096 − 10`, but
still within the limit; HTML escaping is applied to the body after
truncation (not before), and — as the counterexample shows — that order
allows the escape expansion to push the final message past 4096. -/
theorem assembleMessage_truncation_spec (ti pn ts : JStr)
    (hlen : (ti.length : Int) > maxContentLength ti pn ts)
    (hH : fixedLength ti pn ts ≤ 4086) :
    contentText ti pn ts = jsSlice0 ti (maxContentLength ti pn ts) ++ S "..." ∧
    (fixedLength ti pn ts : Int) + ((contentText ti pn ts).length : Int) =
      4096 - 7 ∧
    assembleMessage ti pn ts =
      headerLead ti pn ts ++ headerSuffix ti ++ fieldLabel ti ++
        escapeHtml (some (contentText ti pn ts)) := by
  have h1 : contentText ti pn ts = jsSlice0 ti (maxContentLength ti pn ts) ++ S "..." := by
    unfold contentText
    rw [if_pos hlen]
  refine ⟨h1, ?_, rfl⟩
  have hm0 : 0 ≤ maxContentLength ti pn ts := by
    unfold maxContentLength
    omega
  have hslice : (jsSlice0 ti (maxContentLength ti pn ts)).length =
      (maxContentLength ti pn ts).toNat := by
    unfold jsSlice0
    rw [if_neg (by omega : ¬ maxContentLength ti pn ts < 0)]
    rw [List.length_take]
    omega
  rw [h1, List.length_append, hslice]
  have h3 : (S "...").length = 3 := rfl
  rw [h3]
  unfold maxContentLength at *
  push_cast
  omega

/-- C5 witness: instantiated at a 4038-character body of `a` with an
empty project name (fixed header length 49, content cap 4037). -/
theorem assembleMessage_truncation_spec_witness :
    contentText (List.replicate 4038 'a') [] (S "01-01 00:00") =
      jsSlice0 (List.replicate 4038 'a')
        (maxContentLength (List.replicate 4038 'a') [] (S "01-01 00:00")) ++ S "..." ∧
    (fixedLength (List.replicate 4038 'a') [] (S "01-01 00:00") : Int) +
      ((contentText (List.replicate 4038 'a') [] (S "01-01 00:00")).length : Int) =
      4096 - 7 := by
  have hstat := msgStatus_replicate 'a' 4038 (by decide) (by decide) (by decide)
    (by decide) (by decide) (by decide) (by decide) (by decide) (by decide)
    (by decide) (by decide)
  have hfix := fixedLength_replicate 'a' 4038 hstat
  have hlen : ((List.replicate 4038 'a').length : Int) >
      maxContentLength (List.replicate 4038 'a') [] (S "01-01 00:00") := by
    unfold maxContentLength
    rw [hfix, List.length_replicate]
    omega
  have := assembleMessage_truncation_spec (List.replicate 4038 'a') [] (S "01-01 00:00")
    hlen (by rw [hfix]; omega)
  exact ⟨this.1, this.2.1⟩

/-- One element of an assistant record's `message.content` array
(src/notify-sound.js hook-entry part, lines 235–240): a `type` tag and
the `text` payload consulted when the tag is `"text"`. -/
structure ContentItem where
  type : JStr
  text : JStr
deriving DecidableEq

/-- The `message` field of a transcript record; `content = none` models an
absent/null `content` (the optional-chaining guard `entry.message?.content`
then fails). -/
structure MessageRec where
  content : Option (List ContentItem)
deriving DecidableEq

/-- One parsed transcript record: its `type` tag and optional `message`. -/
structure Entry where
  type : JStr
  message : Option MessageRec
deriving DecidableEq

/-- One line of the transcript file after `JSON.parse` is attempted on it:
either the parse throws (`unparsed`, skipped by the scan) or it yields a
record. -/
inductive TranscriptLine where
  | unparsed
  | entry (e : Entry)
deriving DecidableEq

/-- The text extraction of src/notify-sound.js lines 237–240: keep the
content items whose `type` is `"text"`, project their `text`, and join
with `"\n"`. -/
def joinTexts (items : List ContentItem) : JStr :=
  List.intercalate (S "\n")
    ((items.filter (fun c => c.type == S "text")).map (fun c => c.text))

/-- The summary built at src/notify-sound.js lines 244–245: slice to 100
characters, collapse line breaks to spaces, trim, and append `"..."`
exactly when the original text was longer than 100 characters. -/
def mkSummary (textContent : JStr) : JStr :=
  jsTrim (replaceChar '\n' (S " ") (textContent.take 100)) ++
    (if 100 < textContent.length then S "..." else [])

/-- What the loop body of `extractTaskSummary` produces for one parsed
record (src/notify-sound.js lines 235–247): a summary when the record is
assistant-typed, has a content array, and its joined text is nonempty
(a falsy empty string leaves the loop scanning). -/
def entrySummary (e : Entry) : Option JStr :=
  if e.type == S "assistant" then
    match e.message with
    | some m =>
      match m.content with
      | some items =>
        if (joinTexts items).isEmpty then none else some (mkSummary (joinTexts items))
      | none => none
    | none => none
  else none

/-- The outcome of one loop iteration on one line: unparseable lines are
skipped (the catch block), parsed lines yield `entrySummary`. -/
def lineSummary : TranscriptLine → Option JStr
  | TranscriptLine.unparsed => none
  | TranscriptLine.entry e => entrySummary e

/-- The backward loop of `extractTaskSummary` (src/notify-sound.js lines
232–251), receiving the lines already reversed: return the first summary
found, else `null`. -/
def scanLines : List TranscriptLine → Option JStr
  | [] => none
  | l :: rest =>
    match lineSummary l with
    | some s => some s
    | none => scanLines rest

/-- Embeds `extractTaskSummary` (src/notify-sound.js lines 222–257).
`none` models a missing/null `transcriptPath`, a nonexistent file, or a
read error (all return `null`); `some lines` models the existing file's
content split into lines, each line carried as its `JSON.parse` outcome.
An empty file corresponds to `some [TranscriptLine.unparsed]`
(`''.trim().split('\n')` is `['']`, and `JSON.parse('')` throws).
The loop runs from the last line backward, modelled by scanning the
reversed list. -/
def extractTaskSummary : Option (List TranscriptLine) → Option JStr
  | none => none
  | some lines => scanLines lines.reverse

theorem scanLines_eq_none (l : List TranscriptLine)
    (h : ∀ x ∈ l, lineSummary x = none) : scanLines l = none := by
  induction l with
  | nil => rfl
  | cons a rest ih =>
    unfold scanLines
    rw [h a (List.mem_cons_self a rest)]
    exact ih (fun x hx => h x (List.mem_cons_of_mem _ hx))

theorem scanLines_append_none (a b : List TranscriptLine)
    (h : ∀ x ∈ a, lineSummary x = none) : scanLines (a ++ b) = scanLines b := by
  induction a with
  | nil => rfl
  | cons x rest ih =>
    rw [List.cons_append]
    simp only [scanLines, h x (List.mem_cons_self x rest)]
    exact ih (fun y hy => h y (List.mem_cons_of_mem _ hy))

/-- C3: `extractTaskSummary` returns `null` when the path is missing, the
file does not exist or is unreadable (`none`), when the file is empty
(its single line fails to parse), and when no record qualifies; otherwise
it scans from the last line backward, skipping every unparseable line
without aborting, and returns the summary of the last-occurring qualifying
record (an assistant-typed record with a nonempty joined text segment). -/
theorem extractTaskSummary_spec (lines pre post : List TranscriptLine)
    (e : Entry) (s : JStr)
    (hq : entrySummary e = some s)
    (hpost : ∀ l ∈ post, lineSummary l = none)
    (hnone : ∀ l ∈ lines, lineSummary l = none) :
    extractTaskSummary none = none ∧
    extractTaskSummary (some [TranscriptLine.unparsed]) = none ∧
    extractTaskSummary (some lines) = none ∧
    extractTaskSummary (some (pre ++ TranscriptLine.entry e :: post)) = some s := by
  refine ⟨rfl, rfl, ?_, ?_⟩
  · simp only [extractTaskSummary]
    exact scanLines_eq_none _ (fun x hx => hnone x (List.mem_reverse.mp hx))
  · simp only [extractTaskSummary]
    rw [List.reverse_append, List.reverse_cons, List.append_assoc]
    rw [scanLines_append_none _ _ (fun x hx => hpost x (List.mem_reverse.mp hx))]
    rw [List.singleton_append]
    simp only [scanLines, lineSummary, hq]

/-- C3 witness: a transcript whose last line is garbage, preceded by a
qualifying assistant record, preceded by more garbage: the scan skips the
trailing garbage and returns the assistant record's summary; a transcript
of only garbage returns `null`. -/
theorem extractTaskSummary_spec_witness :
    extractTaskSummary (some [TranscriptLine.unparsed]) = none ∧
    extractTaskSummary (some ([TranscriptLine.unparsed] ++
      TranscriptLine.entry (Entry.mk (S "assistant")
        (some (MessageRec.mk (some [ContentItem.mk (S "text") (S "done")])))) ::
      [TranscriptLine.unparsed])) = some (S "done") :=
  ⟨(extractTaskSummary_spec [TranscriptLine.unparsed] [TranscriptLine.unparsed]
      [TranscriptLine.unparsed]
      (Entry.mk (S "assistant")
        (some (MessageRec.mk (some [ContentItem.mk (S "text") (S "done")]))))
      (S "done") (by decide) (by decide) (by decide)).2.1,
   (extractTaskSummary_spec [TranscriptLine.unparsed] [TranscriptLine.unparsed]
      [TranscriptLine.unparsed]
      (Entry.mk (S "assistant")
        (some (MessageRec.mk (some [ContentItem.mk (S "text") (S "done")]))))
      (S "done") (by decide) (by decide) (by decide)).2.2.2⟩

/-- C2 counterexample: a transcript whose last record's text is the
3-character string "a\nb" (at most 100 characters).  The claim says the
text is returned unmodified, but the code collapses the embedded line
break to a space and returns "a b". -/
theorem extractTaskSummary_counterexample :
    extractTaskSummary (some [TranscriptLine.entry (Entry.mk (S "assistant")
      (some (MessageRec.mk (some [ContentItem.mk (S "text") (S "a\nb")]))))]) ≠
      some (S "a\nb") ∧
    extractTaskSummary (some [TranscriptLine.entry (Entry.mk (S "assistant")
      (some (MessageRec.mk (some [ContentItem.mk (S "text") (S "a\nb")]))))]) =
      some (S "a b") := by
  constructor
  · decide
  · decide

/-- True when neither end of the list is a JavaScript whitespace
character (so `trim` leaves it unchanged). -/
def noEdgeWs (l : JStr) : Bool :=
  (match l.head? with | some c => !jsWhitespace c | none => true) &&
  (match l.getLast? with | some c => !jsWhitespace c | none => true)

theorem dropWhile_eq_self_of_head (p : Char → Bool) (l : JStr)
    (h : ∀ c, l.head? = some c → p c = false) : l.dropWhile p = l := by
  cases l with
  | nil => rfl
  | cons a l' =>
    rw [List.dropWhile_cons_of_neg]
    simp [h a rfl]

theorem jsTrim_eq_self (l : JStr)
    (hhead : ∀ c, l.head? = some c → jsWhitespace c = false)
    (hlast : ∀ c, l.getLast? = some c → jsWhitespace c = false) :
    jsTrim l = l := by
  unfold jsTrim
  rw [dropWhile_eq_self_of_head _ _ hhead]
  rw [dropWhile_eq_self_of_head _ _
    (fun c hc => hlast c (by rwa [List.head?_reverse] at hc))]
  exact List.reverse_reverse l

theorem noEdgeWs_head (l : JStr) (h : noEdgeWs l = true) :
    ∀ c, l.head? = some c → jsWhitespace c = false := by
  intro c hc
  unfold noEdgeWs at h
  rw [hc] at h
  simp only [Bool.and_eq_true] at h
  simpa using h.1

theorem noEdgeWs_last (l : JStr) (h : noEdgeWs l = true) :
    ∀ c, l.getLast? = some c → jsWhitespace c = false := by
  intro c hc
  unfold noEdgeWs at h
  rw [hc] at h
  simp only [Bool.and_eq_true] at h
  simpa using h.2

/-- C2 (amended): for a transcript whose last parseable assistant record
has nonempty text `t`, the code first slices `t` to 100 characters, then
collapses embedded line breaks to spaces and trims surrounding whitespace,
and appends "..." exactly when `t` was longer than 100 characters.
Consequently, whenever the first 100 characters of `t` contain no line
break and no leading/trailing whitespace, the spec's statement holds
verbatim: text longer than 100 characters yields exactly its first 100
characters plus the marker, and text of at most 100 characters is
returned unmodified with no marker. -/
theorem extractTaskSummary_truncation_spec (t : JStr)
    (hne : t ≠ [])
    (hnl : '\n' ∉ t.take 100)
    (hedge : noEdgeWs (t.take 100) = true) :
    (100 < t.length →
      extractTaskSummary (some [TranscriptLine.entry (Entry.mk (S "assistant")
        (some (MessageRec.mk (some [ContentItem.mk (S "text") t]))))]) =
        some (t.take 100 ++ S "...")) ∧
    (t.length ≤ 100 →
      extractTaskSummary (some [TranscriptLine.entry (Entry.mk (S "assistant")
        (some (MessageRec.mk (some [ContentItem.mk (S "text") t]))))]) =
        some t) := by
  have hjoin : joinTexts [ContentItem.mk (S "text") t] = t := by
    simp [joinTexts, List.intercalate]
  have hie : t.isEmpty = false := by
    cases t with
    | nil => exact absurd rfl hne
    | cons a t' => rfl
  have hes : entrySummary (Entry.mk (S "assistant")
      (some (MessageRec.mk (some [ContentItem.mk (S "text") t])))) =
      some (mkSummary t) := by
    unfold entrySummary
    simp only [hjoin, hie]
    rfl
  have hext : extractTaskSummary (some [TranscriptLine.entry (Entry.mk (S "assistant")
      (some (MessageRec.mk (some [ContentItem.mk (S "text") t]))))]) =
      some (mkSummary t) := by
    simp only [extractTaskSummary, List.reverse_singleton, scanLines, lineSummary, hes]
  have htrim : jsTrim (replaceChar '\n' (S " ") (t.take 100)) = t.take 100 := by
    rw [replaceChar_not_mem _ _ _ hnl]
    exact jsTrim_eq_self _ (noEdgeWs_head _ hedge) (noEdgeWs_last _ hedge)
  constructor
  · intro h100
    rw [hext]
    unfold mkSummary
    rw [htrim, if_pos h100]
  · intro h100
    rw [hext]
    unfold mkSummary
    rw [htrim, if_neg (by omega), List.append_nil]
    rw [List.take_of_length_le h100]

/-- C2 witness: the short, linebreak-free text "ok!" is returned
unmodified with no marker. -/
theorem extractTaskSummary_truncation_spec_witness :
    extractTaskSummary (some [TranscriptLine.entry (Entry.mk (S "assistant")
      (some (MessageRec.mk (some [ContentItem.mk (S "text") (S "ok!")]))))]) =
      some (S "ok!") :=
  (extractTaskSummary_truncation_spec (S "ok!") (by decide) (by decide)
    (by decide)).2 (by decide)
